import Mathlib

/- Verification of the EO Goa WhatsApp bot (src/main.py): a shallow embedding
of its session store, bounded conversation history, greeting/help detection,
LLM adapter and the `twilio_webhook` session state machine, followed by
theorems about the session/authentication behaviour.

Conventions of the embedding:
* Python dicts holding fixed keys become structures with the same field names.
* The external Gemini call (`requests.post` inside `call_llm`) is modelled by
  an explicit `LLMResult` input describing the one observable outcome of the
  HTTP exchange; `call_llm` maps it to the returned text exactly as the
  source does (trimmed completion on success, sentinel apology otherwise).
* Python string literals are reproduced character by character; the source
  file contains mojibake characters (for instance U+011F U+0178 U+0161 U+20AC
  where a rocket emoji was intended) and those exact characters are kept.
  ASCII apostrophes inside literals are written with the \x27 escape.
* `datetime.now()` values are opaque: timestamps and the today banner text
  are parameters.  All functions are total, so the webhook's outer
  `try/except` fallback branch (an internal-fault catch-all) is dead code in
  the embedding and is not modelled. -/

set_option maxRecDepth 100000

namespace EO

/-- One logged message in a session's history: the dict appended by
`add_to_history` (`role`, `content`, `timestamp`). -/
structure Turn where
  role : String
  content : String
  timestamp : String
  deriving Repr, DecidableEq

/-- Per-caller session state: the dict created by `get_user_session`.
`member_data` holds the `name` field of the member-data dict (the only key
the source ever stores). -/
structure Session where
  authenticated : Bool
  member_data : Option String
  pending_question : Option String
  conversation_history : List Turn
  auth_attempts : Nat
  deriving Repr, DecidableEq

/-- The zero-valued session installed by `get_user_session` on first access
(and after `user_sessions.pop` on a reset command). -/
def initial_session : Session :=
  { authenticated := false
    member_data := none
    pending_question := none
    conversation_history := []
    auth_attempts := 0 }

/-- `conversation_history[-10:]` truncation done at the end of
`add_to_history`: keep only the last 10 entries, dropping from the front. -/
def keep_last_10 (h : List Turn) : List Turn :=
  if h.length > 10 then h.drop (h.length - 10) else h

/-- `add_to_history`: append a timestamped turn, then truncate the history to
the most recent 10 entries. -/
def add_to_history (s : Session) (role message timestamp : String) : Session :=
  { s with conversation_history :=
      keep_last_10 (s.conversation_history ++ [⟨role, message, timestamp⟩]) }

/-- Python `str.strip()`: drop leading and trailing whitespace (the
embedding works on the character list so that all string operations are
kernel-computable; like `Char.toLower` below this covers the ASCII range,
which is all the source's control flow ever inspects). -/
def py_strip (s : String) : String :=
  String.mk (((s.data.dropWhile Char.isWhitespace).reverse.dropWhile
    Char.isWhitespace).reverse)

/-- Python `str.lower()` (ASCII case folding). -/
def py_lower (s : String) : String :=
  String.mk (s.data.map Char.toLower)

/-- Python `str.startswith(pre)`. -/
def list_starts_with : List Char → List Char → Bool
  | _, [] => true
  | [], _ :: _ => false
  | c :: cs, d :: ds => c == d && list_starts_with cs ds

/-- Python `s.startswith(pre)` on strings. -/
def py_startswith (s pre : String) : Bool :=
  list_starts_with s.data pre.data

/-- Python `str.split()` with no separator: split on whitespace runs,
discarding empty pieces. -/
def py_split_ws (s : String) : List String :=
  ((s.data.splitOnP Char.isWhitespace).map String.mk).filter (fun w => w ≠ "")

/-- Python `c in s` for a single character. -/
def py_contains_char (s : String) (c : Char) : Bool :=
  s.data.contains c

/-- Python `s[n:]` on character counts (used for the `split(prefix, 1)[1]`
tail after a recognized prefix). -/
def py_drop_chars (s : String) (n : Nat) : String :=
  String.mk (s.data.drop n)

/-- Python `len(s)` in characters. -/
def py_len (s : String) : Nat :=
  s.data.length

/-- Auxiliary scan for substring containment. -/
def list_contains_sub (needle : List Char) : List Char → Bool
  | [] => list_starts_with [] needle
  | c :: t => list_starts_with (c :: t) needle || list_contains_sub needle t

/-- Python `needle in haystack` on strings. -/
def str_contains_sub (haystack needle : String) : Bool :=
  list_contains_sub needle.data haystack.data

/-- The greeting dictionary of `detect_greeting`, in insertion order. -/
def greetings : List (String × String) :=
  [("hello", "Hello! Welcome to EO Goa! ğŸš€"),
   ("hi", "Hi there! Welcome to EO Goa! ğŸš€"),
   ("hey", "Hey! Welcome to EO Goa! ğŸš€"),
   ("good morning", "Good morning! Welcome to EO Goa! ğŸš€"),
   ("good afternoon", "Good afternoon! Welcome to EO Goa! ğŸš€"),
   ("good evening", "Good evening! Welcome to EO Goa! ğŸš€"),
   ("namaste", "Namaste! Welcome to EO Goa! ğŸš€"),
   ("namaskar", "Namaskar! Welcome to EO Goa! ğŸš€")]

/-- `detect_greeting`: lowercase and strip the message; if it has at most 3
whitespace-separated words, return the response of the first dictionary
entry whose key the message starts with. -/
def detect_greeting (message : String) : Option String :=
  let message_lower := py_strip (py_lower message)
  if (py_split_ws message_lower).length ≤ 3 then
    (greetings.find? (fun p => py_startswith message_lower p.1)).map (fun p => p.2)
  else
    none

/-- The keyword list of `detect_help_request`. -/
def help_keywords : List String :=
  ["help", "what can you do", "what do you help with", "services",
   "features", "capabilities", "assist"]

/-- `detect_help_request`: true iff some help keyword occurs in the
lowercased, stripped message. -/
def detect_help_request (message : String) : Bool :=
  let message_lower := py_strip (py_lower message)
  help_keywords.any (fun k => str_contains_sub message_lower k)

/-- `get_bot_capabilities` literal. -/
def get_bot_capabilities : String :=
  "ğŸ¤– *Here\x27s what I can help you with:*\n\n1ï¸âƒ£ *Birthday/Anniversary* - Member birthdays and anniversaries\n2ï¸âƒ£ *Strategic Alliances* - Partnership opportunities and collaborations  \n3ï¸âƒ£ *Upcoming Events* - Event schedules and details\n4ï¸âƒ£ *Member Engagement System* - Community activities and participation\n5ï¸âƒ£ *Annual Fees* - Membership fee information and payment details\n6ï¸âƒ£ *Event Photos & Videos* - Access to event media and memories\n7ï¸âƒ£ *Member Details* - Contact information and member directory\n\nğŸ’¬ Just ask me about any of these topics, and I\x27ll be happy to help!\n\n_Example: \"Show me upcoming events\" or \"Show birthdays this month\"_"

/-- Observable outcome of the HTTP exchange performed inside `call_llm`:
either a successful payload carrying a completion text, a 200 payload with
no/empty `candidates` field, a `requests` transport error, or any other
exception raised during the call. -/
inductive LLMResult where
  | success (text : String)
  | missingCandidates
  | requestError
  | otherError
  deriving Repr, DecidableEq

/-- The text `call_llm` returns for a given HTTP outcome (lines 183-194 of
the source): the stripped completion on success, else one of the two
sentinel apology strings. -/
def llm_response : LLMResult → String
  | .success text => py_strip text
  | .missingCandidates =>
      "I\x27m having trouble processing your request right now. Please try again."
  | .requestError =>
      "I\x27m having trouble connecting right now. Please try again in a moment."
  | .otherError =>
      "I\x27m having trouble processing your request right now. Please try again."

/-- The record produced by `get_today_info` (wall-clock dependent, hence a
parameter of the embedding). -/
structure TodayInfo where
  date : String
  formatted_date : String
  day_name : String
  month_name : String
  day : Nat
  month : Nat
  year : Nat
  formatted_readable : String
  deriving Repr, DecidableEq

/-- The system-instruction preamble `call_llm` prepends to every prompt. -/
def system_instructions (today : TodayInfo) : String :=
  "You are a helpful and professional AI assistant for EO Goa (Entrepreneurs\x27 Organization - Goa Chapter).\n\nToday\x27s Date Information:\n- Today is: " ++ today.formatted_readable ++ "\n- Current month: " ++ today.month_name ++ " (" ++ toString today.month ++ ")\n- Current year: " ++ toString today.year ++ "\n\nYour personality and guidelines:\n- Act like a friendly, professional receptionist for EO Goa\n- Be warm, welcoming, and entrepreneurial in tone\n- Use appropriate WhatsApp formatting (*bold*, _italic_) and emojis\n- Keep responses concise but comprehensive for WhatsApp\n- Always respond in English and maintain a professional tone\n- For any topics unrelated to EO, entrepreneurship, business, or networking, politely redirect back to EO Goa topics\n- Base your answers strictly on the provided content/FAQ\n- When asked about events \"today\", check against today\x27s date: " ++ today.formatted_date ++ "\n- For birthday queries, extract all relevant birthday information from the content\n- If information isn\x27t in the content, clearly state \"This information is not available in my current database\"\n- Always be helpful and offer alternative assistance\n\nRemember: You\x27re representing EO Goa - a global community of successful entrepreneurs focused on learning, networking, and growth.\n\nUser Query and Available Content:\n---\n"

/-- `call_llm`: the full prompt (system instructions plus the call-site
prompt) is transmitted to the external service; the reply text is determined
by the outcome of that exchange, modelled by the `LLMResult` argument. -/
def call_llm (today : TodayInfo) (prompt : String) (res : LLMResult) : String :=
  let full_prompt := system_instructions today ++ prompt
  let _ := full_prompt
  llm_response res

/-- The authentication prompt built by `authenticate_user`. -/
def auth_prompt (user_input content : String) : String :=
  "\nYou are checking if a user\x27s authentication details match any member in the EO Goa database.\n\nUser provided: \"" ++ user_input ++ "\"\n\nMember Database Content:\n" ++ content ++ "\n\nTASK: Check if the user\x27s name and date of birth match ANY member in the database.\n\nMATCHING RULES (BE LENIENT):\n1. NAME: Accept partial names, nicknames, first name only, last name only, typos\n   - \"gopal\" should match \"Gopal Sharma\" or \"Gopal Kumar\" etc.\n   - \"john\" should match \"John Doe\" or \"Jonathan Smith\" etc.\n   \n2. DATE: Accept any date format for the same actual date\n   - \"31/03/1975\" = \"31-03-1975\" = \"March 31, 1975\" = \"31 Mar 1975\"\n   - Be flexible with year format: 75 = 1975\n   \n3. MATCH LOGIC: \n   - If name part matches AND date matches = AUTHENTICATE\n   - If name matches multiple people, ask which specific person\n   - If no reasonable match found = NO MATCH\n\nRESPONSE FORMAT (EXACTLY):\n- If found: \"MATCH_FOUND: [Full Name from Database]\"\n- If multiple matches: \"MULTIPLE_MATCHES: [Name1, Name2] - Which person are you?\"\n- If need clarification: \"NEED_MORE_INFO: [specific question]\"\n- If no match: \"NO_MATCH\"\n\nNow check: Does \"" ++ user_input ++ "\" match any member name and DOB in the database above?\n"

/-- `authenticate_user`: build the authentication prompt over the member
corpus and return the oracle's reply text. -/
def authenticate_user (today : TodayInfo) (user_input content : String)
    (res : LLMResult) : String :=
  call_llm today (auth_prompt user_input content) res

/-- The query prompt built by `handle_authenticated_query` for the
content-grounded answer. -/
def query_prompt (question : String) (member_data : Option String) (content history_context : String) : String :=
  "\nAn authenticated EO Goa member has asked: \"" ++ question ++ "\"\n\nMEMBER DATA FROM CONTENT.MD (contains all birthdays, anniversaries, events, etc.):\n" ++ content ++ "\n\nRecent Conversation History:\n" ++ history_context ++ "\n\nMember Information:\n- Authenticated Member: " ++ (member_data.getD "N/A") ++ "\n- Current Month: August (month 8)\n- Current Date: August 17, 2025\n- Current Week: August 17-23, 2025\n\nTASK: Answer the user\x27s question by extracting relevant information from the MEMBER DATA above.\n\nIMPORTANT - UNDERSTAND THE DATA STRUCTURE:\n- EO MEMBERS: People mentioned as \"was born on\" (main members like Sandeep Verenkar, Siddharth Goel, etc.)\n- FAMILY MEMBERS: \n  * SPOUSES: \"His/Her spouse [Name] was born on\"\n  * CHILDREN: \"They have [number] child/children: [Name], born on\"\n\nSPECIFIC INSTRUCTIONS:\n\n1. For MEMBER BIRTHDAY queries (asking about \"members\" birthday):\n   - ONLY include EO members (those with \"was born on\" as main entry)\n   - DO NOT include spouses or children\n   - Format as: \"ğŸ‚ *Member Name* - [Date]\"\n\n2. For FAMILY MEMBER BIRTHDAY queries (asking about \"family members\" or \"spouses\" or \"children\"):\n   - ONLY include spouses and children \n   - DO NOT include main EO members\n   - Format as: \"ğŸ‚ *Family Member Name* ([relationship] of [Member Name]) - [Date]\"\n   - Example: \"ğŸ‚ *Sonali* (spouse of Sandeep Verenkar) - December 9th\"\n\n3. For GENERAL BIRTHDAY queries (asking about \"birthdays\" without specifying):\n   - Include BOTH members and family members\n   - Clearly separate them in sections:\n     \"*EO Members:*\" and \"*Family Members:*\"\n\n4. For TIME-BASED queries:\n   - \"this week\" = August 17-23, 2025\n   - \"this month\" = August 2025\n   - \"today\" = August 17, 2025\n\n5. If NO matches found:\n   - State clearly what was searched for and timeframe\n\n6. RESPONSE FORMAT:\n   - Use WhatsApp formatting (*bold*, _italic_)\n   - Use appropriate emojis (ğŸ‚ for birthdays, ğŸ’’ for anniversaries)\n   - Keep concise but complete\n   - Professional EO Goa tone\n\nNow extract and provide the requested information from the member data above, making sure to distinguish between EO members and their family members.\n"

/-- `handle_authenticated_query`: canned reply for short standalone
greetings, the capability list for help requests, otherwise forward the
question (with identity, corpus and the last 6 history turns) to the query
oracle and relay its answer. -/
def handle_authenticated_query (today : TodayInfo) (question : String)
    (member_data : Option String) (content : String)
    (conversation_history : List Turn) (res : LLMResult) : String :=
  let greeting_shortcut :=
    if (py_split_ws question).length ≤ 3 then detect_greeting question else none
  match greeting_shortcut with
  | some greeting_response =>
      greeting_response ++ "\n\n*Welcome back, " ++ member_data.getD "there" ++
        "!* ğŸ˜Š\n\nHow may I assist you with EO Goa today?"
  | none =>
      if detect_help_request question then
        get_bot_capabilities
      else
        let history_context := String.intercalate "\n"
          ((conversation_history.drop (conversation_history.length - 6)).map
            (fun msg => msg.role ++ ": " ++ msg.content))
        call_llm today (query_prompt question member_data content history_context) res

/-- The command list of the webhook's reset/menu branch. -/
def reset_commands : List String :=
  ["reset", "restart", "start", "hi", "hello", "main", "menu", "9"]

/-- `message_body.lower() in reset_commands`. -/
def is_reset_command (message_body : String) : Bool :=
  reset_commands.contains (py_lower message_body)

/-- The subset of reset commands answered with the static welcome banner. -/
def greeting_commands : List String := ["hi", "hello", "start"]

/-- The static welcome banner of the `hi`/`hello`/`start` branch. -/
def welcome_banner (today : TodayInfo) : String :=
  "ğŸš€ *Welcome to EO Goa!*\n\nI\x27m your EO Goa assistant, here to help you connect with our community of successful entrepreneurs.\n\nğŸ“… Today is " ++ today.formatted_readable ++ "\n\nJoin a global community by entrepreneurs, for entrepreneurs, designed to help business owners take their leadership and companies to the next level.\n\nğŸ” To access member information, please provide your *name and date of birth* (e.g., *John Doe, 15-03-1985*).\n\n*Connect â€¢ Learn â€¢ Grow* ğŸŒŸ"

/-- The menu prompt of the non-greeting reset branch. -/
def menu_prompt (content : String) : String :=
  "Extract and format the main menu from the full content below for WhatsApp display. Keep it concise and well-formatted.\n\n---CONTENT---\n" ++ content

/-- The welcome message built on a `MATCH_FOUND` authentication. -/
def welcome_msg (member_name : String) : String :=
  "âœ… *Welcome, " ++ member_name ++ "!* \n\nYou\x27re now authenticated and ready to explore EO Goa! ğŸš€\n\nI\x27m here to help you with our entrepreneur community. "

/-- Python truthiness of `session.get('pending_question')`: `None` and the
empty string are both falsy. -/
def pending_truthy : Option String → Bool
  | none => false
  | some q => q != ""

/-- The `MATCH_FOUND` branch of the webhook (lines 365-385): authenticate,
store the member name, reset the attempt counter, and answer a pending
question if one is (truthily) stored. -/
def handle_match (s : Session) (content : String) (auth_result : String)
    (today : TodayInfo) (queryRes : LLMResult) : Session × String :=
  let member_name := py_strip (py_drop_chars auth_result (py_len "MATCH_FOUND:"))
  let s := { s with authenticated := true, member_data := some member_name,
                    auth_attempts := 0 }
  if pending_truthy s.pending_question then
    let question := s.pending_question.getD ""
    let s := { s with pending_question := none }
    let answer := handle_authenticated_query today question s.member_data content
      s.conversation_history queryRes
    (s, welcome_msg member_name ++ "\n\nRegarding your earlier question:\n> \"_" ++
      question ++ "_\"\n\n" ++ answer)
  else
    (s, welcome_msg member_name ++ "\n\nHow may I assist you today? Feel free to ask about events, members, birthdays, or anything EO Goa related! ğŸ˜Š")

/-- The `looks_like_auth` heuristic of the `NO_MATCH` branch. -/
def looks_like_auth (message_body : String) : Bool :=
  (py_contains_char message_body ',' && message_body.data.any Char.isDigit) ||
  (message_body.data.any Char.isDigit &&
    decide (2 ≤ (py_split_ws message_body).length)) ||
  (py_contains_char message_body '/' || py_contains_char message_body '-')

/-- Retry reply of the `NO_MATCH` branch, stating attempts remaining. -/
def retry_reply (attempts_left : Nat) : String :=
  "âŒ I couldn\x27t match those details in our member database.\n\nPlease try again with your *full name and date of birth*.\n\n_You have " ++ toString attempts_left ++ " attempt(s) remaining._"

/-- Terminal lockout reply of the `NO_MATCH` branch. -/
def lockout_reply : String :=
  "âŒ *Authentication failed* after multiple attempts. Please contact the admin or type \x27reset\x27 to start over."

/-- Greeting reply of the `NO_MATCH` branch for unauthenticated callers. -/
def unauth_greeting_reply (greeting_response : String) : String :=
  greeting_response ++ "\n\nI\x27d love to help you explore our entrepreneur community! \n\nğŸ” To get started, please provide your *name and date of birth* for authentication (e.g., *John Doe, 15-03-1985*)."

/-- Question-capture reply of the `NO_MATCH` branch (first failed attempt
that does not look like credentials). -/
def question_capture_reply (message_body : String) : String :=
  "ğŸ‘ *Great question!* I\x27d be happy to help with that.\n\n> \"_" ++ message_body ++ "_\"\n\nğŸ” First, I need to verify your identity. Please provide your *name and date of birth* to continue (e.g., *John Doe, 15-03-1985*)."

/-- The `NO_MATCH` (final `else`) branch of the webhook, lines 392-429:
increment the attempt counter, then decide between lockout, retry,
greeting, and question capture. -/
def handle_no_match (s : Session) (message_body : String) : Session × String :=
  let s := { s with auth_attempts := s.auth_attempts + 1 }
  let looks := looks_like_auth message_body
  if looks ∨ s.auth_attempts > 1 then
    if s.auth_attempts ≥ 3 then
      ({ s with pending_question := none }, lockout_reply)
    else
      (s, retry_reply (3 - s.auth_attempts))
  else
    match detect_greeting message_body with
    | some greeting_response => (s, unauth_greeting_reply greeting_response)
    | none =>
        ({ s with pending_question := some message_body },
         question_capture_reply message_body)

/-- `auth_result.split(':', 1)[1]`: everything after the first colon (the
call sites guard on a prefix that contains a colon). -/
def split_colon_tail (s : String) : String :=
  String.mk ((s.data.dropWhile (fun c => c != ':')).drop 1)

/-- The unauthenticated (`else`) branch of the webhook, lines 360-429:
always attempt authentication first, then dispatch on the oracle's reply
grammar; any reply not matching a recognized prefix falls into the
`NO_MATCH` branch. -/
def handle_unauthenticated (s : Session) (message_body content : String)
    (today : TodayInfo) (authRes queryRes : LLMResult) : Session × String :=
  let auth_result := authenticate_user today message_body content authRes
  if py_startswith auth_result "MATCH_FOUND:" then
    handle_match s content auth_result today queryRes
  else if py_startswith auth_result "MULTIPLE_MATCHES:" ||
          py_startswith auth_result "NEED_MORE_INFO:" then
    ({ s with auth_attempts := s.auth_attempts + 1 },
     "ğŸ¤” " ++ py_strip (split_colon_tail auth_result))
  else
    handle_no_match s message_body

/-- The observable inputs of one webhook invocation: the inbound message
body and the outcomes of the (at most two) external LLM calls the turn can
make, plus the two opaque timestamps taken during the turn. -/
structure TurnInput where
  body : String
  authRes : LLMResult
  queryRes : LLMResult
  ts_user : String
  ts_assistant : String
  deriving Repr, DecidableEq

/-- `twilio_webhook`: strip the body, log the user turn, run the
reset/authenticated/unauthenticated dispatch, log and return the reply.
A reset command discards the session (the already-logged user turn with
it) and recreates a zero-valued one.  The outer `try/except` of the source
only catches internal faults, which the total embedding does not have. -/
def twilio_webhook (session : Session) (inp : TurnInput) (content : String)
    (today : TodayInfo) : Session × String :=
  let message_body := py_strip inp.body
  let s1 := add_to_history session "user" message_body inp.ts_user
  let step :=
    if is_reset_command message_body then
      let fresh := initial_session
      if greeting_commands.contains (py_lower message_body) then
        (fresh, welcome_banner today)
      else
        (fresh, call_llm today (menu_prompt content) inp.queryRes)
    else if s1.authenticated then
      (s1, handle_authenticated_query today message_body s1.member_data content
            s1.conversation_history inp.queryRes)
    else
      handle_unauthenticated s1 message_body content today inp.authRes inp.queryRes
  (add_to_history step.1 "assistant" step.2 inp.ts_assistant, step.2)

/-- Fold a sequence of webhook turns over a session (one caller sending a
sequence of messages). -/
def run_webhook_turns (s : Session) (inputs : List TurnInput)
    (content : String) (today : TodayInfo) : Session :=
  inputs.foldl (fun s inp => (twilio_webhook s inp content today).1) s

/-- Fold a sequence of raw `add_to_history` appends over a session. -/
def run_history (s : Session) (turns : List Turn) : Session :=
  turns.foldl (fun s t => add_to_history s t.role t.content t.timestamp) s

/-- A concrete `get_today_info` record used in concrete runs. -/
def sample_today : TodayInfo :=
  ⟨"2025-08-17", "17-08-2025", "Sunday", "August", 17, 8, 2025,
   "Sunday, August 17, 2025"⟩

/- ------------------------------------------------------------------ -/
/- Helper lemmas                                                      -/
/- ------------------------------------------------------------------ -/

@[simp] theorem add_to_history_authenticated (s : Session) (r m t : String) :
    (add_to_history s r m t).authenticated = s.authenticated := rfl

@[simp] theorem add_to_history_member_data (s : Session) (r m t : String) :
    (add_to_history s r m t).member_data = s.member_data := rfl

@[simp] theorem add_to_history_pending_question (s : Session) (r m t : String) :
    (add_to_history s r m t).pending_question = s.pending_question := rfl

@[simp] theorem add_to_history_auth_attempts (s : Session) (r m t : String) :
    (add_to_history s r m t).auth_attempts = s.auth_attempts := rfl

theorem add_to_history_conversation_history (s : Session) (r m t : String) :
    (add_to_history s r m t).conversation_history =
      keep_last_10 (s.conversation_history ++ [⟨r, m, t⟩]) := rfl

theorem keep_last_10_eq_drop (h : List Turn) :
    keep_last_10 h = h.drop (h.length - 10) := by
  unfold keep_last_10
  split
  · rfl
  · rename_i hle
    have h0 : h.length - 10 = 0 := by omega
    rw [h0, List.drop_zero]

theorem keep_last_10_length_le (h : List Turn) :
    (keep_last_10 h).length ≤ 10 := by
  rw [keep_last_10_eq_drop, List.length_drop]
  omega

theorem keep_last_10_append (xs ys : List Turn) :
    keep_last_10 (keep_last_10 xs ++ ys) = keep_last_10 (xs ++ ys) := by
  simp only [keep_last_10_eq_drop, List.length_append, List.length_drop,
    List.drop_append_eq_append_drop, List.drop_drop]
  congr 1
  · congr 1
    omega
  · congr 1
    omega

theorem run_history_eq_keep_last_10 (turns : List Turn) :
    ∀ s : Session, s.conversation_history.length ≤ 10 →
      (run_history s turns).conversation_history =
        keep_last_10 (s.conversation_history ++ turns) := by
  induction turns with
  | nil =>
      intro s hs
      simp only [run_history, List.foldl_nil, List.append_nil,
        keep_last_10_eq_drop]
      have h0 : s.conversation_history.length - 10 = 0 := by omega
      rw [h0, List.drop_zero]
  | cons t ts ih =>
      intro s hs
      have hstep : run_history s (t :: ts) =
          run_history (add_to_history s t.role t.content t.timestamp) ts := by
        simp [run_history]
      rw [hstep, ih _ (keep_last_10_length_le _)]
      show keep_last_10 (keep_last_10 (s.conversation_history ++ [t]) ++ ts) = _
      rw [keep_last_10_append, List.append_assoc]
      rfl

theorem handle_no_match_authenticated (s : Session) (m : String) :
    (handle_no_match s m).1.authenticated = s.authenticated := by
  simp only [handle_no_match]
  split
  · split <;> rfl
  · split <;> rfl

theorem handle_no_match_auth_attempts (s : Session) (m : String) :
    (handle_no_match s m).1.auth_attempts = s.auth_attempts + 1 := by
  simp only [handle_no_match]
  split
  · split <;> rfl
  · split <;> rfl

/-- An unauthenticated turn whose oracle reply matches none of the three
recognized prefixes runs the `NO_MATCH` branch. -/
theorem handle_unauthenticated_fallback (s : Session) (m c : String)
    (td : TodayInfo) (ar qr : LLMResult)
    (h1 : py_startswith (llm_response ar) "MATCH_FOUND:" = false)
    (h2 : py_startswith (llm_response ar) "MULTIPLE_MATCHES:" = false)
    (h3 : py_startswith (llm_response ar) "NEED_MORE_INFO:" = false) :
    handle_unauthenticated s m c td ar qr = handle_no_match s m := by
  simp only [handle_unauthenticated, authenticate_user, call_llm, h1, h2, h3,
    Bool.false_eq_true, if_false, Bool.or_self]

/-- Shape of a webhook turn on an unauthenticated session and a non-reset
message. -/
theorem twilio_webhook_unauth (md pq : Option String) (hist : List Turn)
    (a : Nat) (body c t1 t2 : String) (td : TodayInfo) (ar qr : LLMResult)
    (hreset : is_reset_command (py_strip body) = false) :
    twilio_webhook ⟨false, md, pq, hist, a⟩ ⟨body, ar, qr, t1, t2⟩ c td =
      (let s1 := add_to_history ⟨false, md, pq, hist, a⟩ "user" (py_strip body) t1
       let step := handle_unauthenticated s1 (py_strip body) c td ar qr
       (add_to_history step.1 "assistant" step.2 t2, step.2)) := by
  simp only [twilio_webhook, hreset, add_to_history_authenticated,
    Bool.false_eq_true, if_false]

/-- Shape of a webhook turn on an authenticated session and a non-reset
message. -/
theorem twilio_webhook_auth (md pq : Option String) (hist : List Turn)
    (a : Nat) (body c t1 t2 : String) (td : TodayInfo) (ar qr : LLMResult)
    (hreset : is_reset_command (py_strip body) = false) :
    twilio_webhook ⟨true, md, pq, hist, a⟩ ⟨body, ar, qr, t1, t2⟩ c td =
      (let s1 := add_to_history ⟨true, md, pq, hist, a⟩ "user" (py_strip body) t1
       let reply := handle_authenticated_query td (py_strip body) md c
         s1.conversation_history qr
       (add_to_history s1 "assistant" reply t2, reply)) := by
  simp only [twilio_webhook, hreset, add_to_history_authenticated,
    add_to_history_member_data, Bool.false_eq_true, if_false, if_true]

/-- Shape of a webhook turn on a reset command: the session is discarded and
recreated zero-valued, and only the assistant turn is logged into it. -/
theorem twilio_webhook_reset (s : Session) (body c t1 t2 : String)
    (td : TodayInfo) (ar qr : LLMResult)
    (hreset : is_reset_command (py_strip body) = true) :
    twilio_webhook s ⟨body, ar, qr, t1, t2⟩ c td =
      (let reply := if greeting_commands.contains (py_lower (py_strip body)) then
          welcome_banner td
        else
          call_llm td (menu_prompt c) qr
       (add_to_history initial_session "assistant" reply t2, reply)) := by
  simp only [twilio_webhook, hreset, if_true]
  split <;> rfl

theorem handle_match_authenticated (s : Session) (c r : String)
    (td : TodayInfo) (qr : LLMResult) :
    (handle_match s c r td qr).1.authenticated = true := by
  simp only [handle_match]
  split <;> rfl

theorem handle_match_auth_attempts (s : Session) (c r : String)
    (td : TodayInfo) (qr : LLMResult) :
    (handle_match s c r td qr).1.auth_attempts = 0 := by
  simp only [handle_match]
  split <;> rfl

/-- An unauthenticated turn whose oracle reply starts with `MATCH_FOUND:`
runs the match branch. -/
theorem handle_unauthenticated_match (s : Session) (m c : String)
    (td : TodayInfo) (ar qr : LLMResult)
    (hm : py_startswith (llm_response ar) "MATCH_FOUND:" = true) :
    handle_unauthenticated s m c td ar qr =
      handle_match s c (llm_response ar) td qr := by
  simp only [handle_unauthenticated, authenticate_user, call_llm, hm, if_true]

/-- Core fallback fact: on an unauthenticated session, a non-reset message
whose oracle reply matches none of the three recognized prefixes leaves the
caller unauthenticated, increments the attempt counter, and produces exactly
the same turn as an oracle reply of `NO_MATCH`. -/
theorem webhook_fallback_spec (md pq : Option String) (hist : List Turn)
    (a : Nat) (body c t1 t2 : String) (td : TodayInfo) (ar qr : LLMResult)
    (hreset : is_reset_command (py_strip body) = false)
    (h1 : py_startswith (llm_response ar) "MATCH_FOUND:" = false)
    (h2 : py_startswith (llm_response ar) "MULTIPLE_MATCHES:" = false)
    (h3 : py_startswith (llm_response ar) "NEED_MORE_INFO:" = false) :
    (twilio_webhook ⟨false, md, pq, hist, a⟩ ⟨body, ar, qr, t1, t2⟩
        c td).1.authenticated = false ∧
    (twilio_webhook ⟨false, md, pq, hist, a⟩ ⟨body, ar, qr, t1, t2⟩
        c td).1.auth_attempts = a + 1 ∧
    twilio_webhook ⟨false, md, pq, hist, a⟩ ⟨body, ar, qr, t1, t2⟩ c td =
      twilio_webhook ⟨false, md, pq, hist, a⟩
        ⟨body, .success "NO_MATCH", qr, t1, t2⟩ c td := by
  have hnm1 : py_startswith (llm_response (.success "NO_MATCH")) "MATCH_FOUND:"
      = false := by decide
  have hnm2 : py_startswith (llm_response (.success "NO_MATCH")) "MULTIPLE_MATCHES:"
      = false := by decide
  have hnm3 : py_startswith (llm_response (.success "NO_MATCH")) "NEED_MORE_INFO:"
      = false := by decide
  rw [twilio_webhook_unauth md pq hist a body c t1 t2 td ar qr hreset,
    twilio_webhook_unauth md pq hist a body c t1 t2 td (.success "NO_MATCH")
      qr hreset]
  simp only [add_to_history_authenticated, add_to_history_auth_attempts,
    handle_unauthenticated_fallback _ _ _ _ _ _ h1 h2 h3,
    handle_unauthenticated_fallback _ _ _ _ _ _ hnm1 hnm2 hnm3,
    handle_no_match_authenticated, handle_no_match_auth_attempts]
  simp

/-- Core greeting fact of the `NO_MATCH` branch: from a fresh session, an
unmatched message that does not look like credentials but is detected as a
greeting consumes one attempt, leaves `pending_question` empty, and is
answered with the greeting-plus-credentials reply. -/
theorem webhook_greeting_spec (md : Option String) (hist : List Turn)
    (body c t1 t2 : String) (td : TodayInfo) (ar qr : LLMResult) (g : String)
    (hreset : is_reset_command (py_strip body) = false)
    (hnm : llm_response ar = "NO_MATCH")
    (hla : looks_like_auth (py_strip body) = false)
    (hgr : detect_greeting (py_strip body) = some g) :
    (twilio_webhook ⟨false, md, none, hist, 0⟩ ⟨body, ar, qr, t1, t2⟩
        c td).1.auth_attempts = 1 ∧
    (twilio_webhook ⟨false, md, none, hist, 0⟩ ⟨body, ar, qr, t1, t2⟩
        c td).1.pending_question = none ∧
    (twilio_webhook ⟨false, md, none, hist, 0⟩ ⟨body, ar, qr, t1, t2⟩
        c td).1.authenticated = false ∧
    (twilio_webhook ⟨false, md, none, hist, 0⟩ ⟨body, ar, qr, t1, t2⟩
        c td).2 = unauth_greeting_reply g := by
  have h1 : py_startswith (llm_response ar) "MATCH_FOUND:" = false := by
    rw [hnm]; decide
  have h2 : py_startswith (llm_response ar) "MULTIPLE_MATCHES:" = false := by
    rw [hnm]; decide
  have h3 : py_startswith (llm_response ar) "NEED_MORE_INFO:" = false := by
    rw [hnm]; decide
  rw [twilio_webhook_unauth md none hist 0 body c t1 t2 td ar qr hreset]
  simp only [add_to_history_authenticated, add_to_history_auth_attempts,
    add_to_history_pending_question,
    handle_unauthenticated_fallback _ _ _ _ _ _ h1 h2 h3]
  simp only [handle_no_match, add_to_history_auth_attempts,
    add_to_history_pending_question, hla, hgr]
  simp

/-- When the question is neither a detected greeting nor a help request,
`handle_authenticated_query` forwards it (with identity, corpus and the last
6 history turns) to the query oracle and relays the answer. -/
theorem handle_authenticated_query_forward (td : TodayInfo) (q : String)
    (md : Option String) (c : String) (h : List Turn) (qr : LLMResult)
    (hgr : detect_greeting q = none) (hhelp : detect_help_request q = false) :
    handle_authenticated_query td q md c h qr =
      call_llm td (query_prompt q md c (String.intercalate "\n"
        ((h.drop (h.length - 6)).map
          (fun msg => msg.role ++ ": " ++ msg.content)))) qr := by
  simp only [handle_authenticated_query]
  by_cases hl : (py_split_ws q).length ≤ 3
  · simp [hl, hgr, hhelp]
  · simp [hl, hhelp]

/-- C5: the conversation history never holds more than 10 turns (for any
session whose history is within the bound, any sequence of appended turns
keeps it within the bound), and the oldest turns are dropped first: after
appending 15 turns to a fresh session, the history is exactly the last 10 of
them, in insertion order. -/
theorem claim_C5 :
    (∀ (s : Session) (turns : List Turn), s.conversation_history.length ≤ 10 →
        (run_history s turns).conversation_history.length ≤ 10) ∧
    (∀ turns : List Turn, turns.length = 15 →
        (run_history initial_session turns).conversation_history =
          turns.drop 5) := by
  constructor
  · intro s turns hs
    rw [run_history_eq_keep_last_10 turns s hs]
    exact keep_last_10_length_le _
  · intro turns h15
    have h0 : (initial_session).conversation_history.length ≤ 10 := by
      simp [initial_session]
    rw [run_history_eq_keep_last_10 turns initial_session h0]
    show keep_last_10 ([] ++ turns) = turns.drop 5
    rw [List.nil_append, keep_last_10_eq_drop, h15]

/-- Witness for C5 at a concrete 15-turn append. -/
theorem claim_C5_witness :
    (run_history initial_session
        ((List.range 15).map
          (fun i => (⟨"user", toString i, ""⟩ : Turn)))).conversation_history.length ≤ 10 ∧
    (run_history initial_session
        ((List.range 15).map
          (fun i => (⟨"user", toString i, ""⟩ : Turn)))).conversation_history =
      ((List.range 15).map (fun i => (⟨"user", toString i, ""⟩ : Turn))).drop 5 :=
  ⟨claim_C5.1 initial_session _ (by decide),
   claim_C5.2 _ (by simp)⟩

/- ------------------------------------------------------------------ -/
/- Claims                                                             -/
/- ------------------------------------------------------------------ -/

/-- C1 counterexample: from a fresh unauthenticated session and the non-reset
message "What events are coming up?", a failed oracle call (transport error)
does change the session — `auth_attempts` becomes 1 and `pending_question`
is set to the message — and the reply is the question-capture credential
prompt, not a transient-error message; this contradicts the claim that
`auth_attempts`, `authenticated` and `pending_question` are unchanged on
oracle failure. -/
theorem claim_C1_counterexample :
    (twilio_webhook initial_session
        ⟨"What events are coming up?", .requestError, .success "A", "t1", "t2"⟩
        "corpus" sample_today).1.auth_attempts = 1 ∧
    (twilio_webhook initial_session
        ⟨"What events are coming up?", .requestError, .success "A", "t1", "t2"⟩
        "corpus" sample_today).1.pending_question =
      some "What events are coming up?" ∧
    (twilio_webhook initial_session
        ⟨"What events are coming up?", .requestError, .success "A", "t1", "t2"⟩
        "corpus" sample_today).2 =
      question_capture_reply "What events are coming up?" := by
  decide

/-- C1 (amended): for every unauthenticated session and every inbound
non-reset message, if the oracle call fails (network error, exception, or a
response payload lacking the completion field), `call_llm` returns a
sentinel apology that matches no recognized prefix, so the turn is processed
exactly as a `NO_MATCH` oracle outcome: the caller stays unauthenticated,
`auth_attempts` is incremented, and the session and reply are identical to
those of a `NO_MATCH` turn (in particular the reply is the NoMatch-branch
reply, not a distinct transient-error message). -/
theorem claim_C1_amended (md pq : Option String) (hist : List Turn) (a : Nat)
    (body c t1 t2 : String) (td : TodayInfo) (ar qr : LLMResult)
    (hreset : is_reset_command (py_strip body) = false)
    (hfail : ar = .missingCandidates ∨ ar = .requestError ∨ ar = .otherError) :
    (twilio_webhook ⟨false, md, pq, hist, a⟩ ⟨body, ar, qr, t1, t2⟩
        c td).1.authenticated = false ∧
    (twilio_webhook ⟨false, md, pq, hist, a⟩ ⟨body, ar, qr, t1, t2⟩
        c td).1.auth_attempts = a + 1 ∧
    twilio_webhook ⟨false, md, pq, hist, a⟩ ⟨body, ar, qr, t1, t2⟩ c td =
      twilio_webhook ⟨false, md, pq, hist, a⟩
        ⟨body, .success "NO_MATCH", qr, t1, t2⟩ c td := by
  rcases hfail with h | h | h <;> subst h <;>
    exact webhook_fallback_spec md pq hist a body c t1 t2 td _ qr hreset
      (by decide) (by decide) (by decide)

/-- Witness for C1 (amended) at a concrete failing turn. -/
theorem claim_C1_witness :
    (twilio_webhook ⟨false, none, none, [], 0⟩
        ⟨"What events are coming up?", .requestError, .success "A", "t1", "t2"⟩
        "corpus" sample_today).1.authenticated = false ∧
    (twilio_webhook ⟨false, none, none, [], 0⟩
        ⟨"What events are coming up?", .requestError, .success "A", "t1", "t2"⟩
        "corpus" sample_today).1.auth_attempts = 0 + 1 ∧
    twilio_webhook ⟨false, none, none, [], 0⟩
        ⟨"What events are coming up?", .requestError, .success "A", "t1", "t2"⟩
        "corpus" sample_today =
      twilio_webhook ⟨false, none, none, [], 0⟩
        ⟨"What events are coming up?", .success "NO_MATCH", .success "A",
          "t1", "t2"⟩ "corpus" sample_today :=
  claim_C1_amended none none [] 0 "What events are coming up?" "corpus"
    "t1" "t2" sample_today .requestError (.success "A") (by decide)
    (Or.inr (Or.inl rfl))

/-- C2 counterexample: a locked-out session (unauthenticated,
`auth_attempts` = 3) IS authenticated by a subsequent non-reset message for
which the oracle returns `MATCH_FOUND`, contradicting the claim that lockout
is exited exclusively via reset. -/
theorem claim_C2_counterexample :
    (twilio_webhook ⟨false, none, none, [], 3⟩
        ⟨"Jane Doe, 12-05-1990", .success "MATCH_FOUND: Jane Doe",
          .success "A", "t1", "t2"⟩
        "corpus" sample_today).1.authenticated = true := by
  decide

/-- C2 (amended): lockout is not terminal with respect to automatic
authentication: from every locked-out session (unauthenticated,
`auth_attempts` ≥ 3), a non-reset message for which the oracle returns
`MATCH_FOUND` authenticates the caller and resets `auth_attempts` to 0;
lockout only changes the reply text of further unmatched attempts. -/
theorem claim_C2_amended (md pq : Option String) (hist : List Turn) (a : Nat)
    (body c t1 t2 : String) (td : TodayInfo) (ar qr : LLMResult)
    (_hlock : 3 ≤ a)
    (hreset : is_reset_command (py_strip body) = false)
    (hm : py_startswith (llm_response ar) "MATCH_FOUND:" = true) :
    (twilio_webhook ⟨false, md, pq, hist, a⟩ ⟨body, ar, qr, t1, t2⟩
        c td).1.authenticated = true ∧
    (twilio_webhook ⟨false, md, pq, hist, a⟩ ⟨body, ar, qr, t1, t2⟩
        c td).1.auth_attempts = 0 := by
  rw [twilio_webhook_unauth md pq hist a body c t1 t2 td ar qr hreset]
  simp only [add_to_history_authenticated, add_to_history_auth_attempts,
    handle_unauthenticated_match _ _ _ _ _ _ hm]
  exact ⟨handle_match_authenticated _ _ _ _ _, handle_match_auth_attempts _ _ _ _ _⟩

/-- Witness for C2 (amended) at a concrete locked-out session. -/
theorem claim_C2_witness :
    (twilio_webhook ⟨false, none, none, [], 3⟩
        ⟨"Jane Doe, 12-05-1990", .success "MATCH_FOUND: Jane Doe",
          .success "A", "t1", "t2"⟩ "corpus" sample_today).1.authenticated = true ∧
    (twilio_webhook ⟨false, none, none, [], 3⟩
        ⟨"Jane Doe, 12-05-1990", .success "MATCH_FOUND: Jane Doe",
          .success "A", "t1", "t2"⟩ "corpus" sample_today).1.auth_attempts = 0 :=
  claim_C2_amended none none [] 3 "Jane Doe, 12-05-1990" "corpus" "t1" "t2"
    sample_today (.success "MATCH_FOUND: Jane Doe") (.success "A")
    (by decide) (by decide) (by decide)

/-- C3 counterexample: from a fresh session, the non-reset message
"John Doe, 15-03-1985" with a `NO_MATCH` oracle reply leaves
`pending_question` empty (the message looks like credentials, so the code
replies with the retry prompt instead of capturing a question),
contradicting the claim that every first `NO_MATCH` message is stored as
the pending question. -/
theorem claim_C3_counterexample :
    (twilio_webhook initial_session
        ⟨"John Doe, 15-03-1985", .success "NO_MATCH", .success "A",
          "t1", "t2"⟩ "corpus" sample_today).1.pending_question = none ∧
    (twilio_webhook initial_session
        ⟨"John Doe, 15-03-1985", .success "NO_MATCH", .success "A",
          "t1", "t2"⟩ "corpus" sample_today).1.auth_attempts = 1 ∧
    (twilio_webhook initial_session
        ⟨"John Doe, 15-03-1985", .success "NO_MATCH", .success "A",
          "t1", "t2"⟩ "corpus" sample_today).2 = retry_reply 2 := by
  decide

/-- C3 (amended): for every fresh session (`auth_attempts` = 0, no pending
question) and every inbound non-reset message for which the oracle returns
`NO_MATCH`, provided the message neither looks like authentication data (a
comma together with a digit, a digit with at least two words, or a '/' or
'-') nor is detected as a standalone greeting, after the turn
`pending_question` equals exactly the (stripped) message text and
`auth_attempts` equals 1. -/
theorem claim_C3_amended (md : Option String) (hist : List Turn)
    (body c t1 t2 : String) (td : TodayInfo) (ar qr : LLMResult)
    (hreset : is_reset_command (py_strip body) = false)
    (hnm : llm_response ar = "NO_MATCH")
    (hla : looks_like_auth (py_strip body) = false)
    (hgr : detect_greeting (py_strip body) = none) :
    (twilio_webhook ⟨false, md, none, hist, 0⟩ ⟨body, ar, qr, t1, t2⟩
        c td).1.pending_question = some (py_strip body) ∧
    (twilio_webhook ⟨false, md, none, hist, 0⟩ ⟨body, ar, qr, t1, t2⟩
        c td).1.auth_attempts = 1 ∧
    (twilio_webhook ⟨false, md, none, hist, 0⟩ ⟨body, ar, qr, t1, t2⟩
        c td).2 = question_capture_reply (py_strip body) := by
  have h1 : py_startswith (llm_response ar) "MATCH_FOUND:" = false := by
    rw [hnm]; decide
  have h2 : py_startswith (llm_response ar) "MULTIPLE_MATCHES:" = false := by
    rw [hnm]; decide
  have h3 : py_startswith (llm_response ar) "NEED_MORE_INFO:" = false := by
    rw [hnm]; decide
  rw [twilio_webhook_unauth md none hist 0 body c t1 t2 td ar qr hreset]
  simp only [add_to_history_pending_question, add_to_history_auth_attempts,
    handle_unauthenticated_fallback _ _ _ _ _ _ h1 h2 h3]
  simp only [handle_no_match, add_to_history_pending_question,
    add_to_history_auth_attempts, hla, hgr]
  simp

/-- Witness for C3 (amended) at a concrete plain-question turn. -/
theorem claim_C3_witness :
    (twilio_webhook ⟨false, none, none, [], 0⟩
        ⟨"What events are coming up?", .success "NO_MATCH", .success "A",
          "t1", "t2"⟩ "corpus" sample_today).1.pending_question =
      some (py_strip "What events are coming up?") ∧
    (twilio_webhook ⟨false, none, none, [], 0⟩
        ⟨"What events are coming up?", .success "NO_MATCH", .success "A",
          "t1", "t2"⟩ "corpus" sample_today).1.auth_attempts = 1 ∧
    (twilio_webhook ⟨false, none, none, [], 0⟩
        ⟨"What events are coming up?", .success "NO_MATCH", .success "A",
          "t1", "t2"⟩ "corpus" sample_today).2 =
      question_capture_reply (py_strip "What events are coming up?") :=
  claim_C3_amended none [] "What events are coming up?" "corpus" "t1" "t2"
    sample_today (.success "NO_MATCH") (.success "A") (by decide) (by decide)
    (by decide) (by decide)

/-- C4 counterexample: four consecutive unmatched credential-looking
messages drive `auth_attempts` to 4, above the claimed bound of 3 — the
counter keeps incrementing after lockout. -/
theorem claim_C4_counterexample :
    (run_webhook_turns initial_session
        (List.replicate 4 ⟨"x, 1", .success "NO_MATCH", .success "A",
          "t", "t"⟩) "c" sample_today).auth_attempts = 4 := by
  decide

/-- C4 (amended): `auth_attempts` is reset to 0 on explicit reset and on
successful authentication, but it is not bounded by 3: repeated unmatched
attempts after lockout keep incrementing it (see the counterexample). -/
theorem claim_C4_amended :
    (∀ (s : Session) (body c t1 t2 : String) (td : TodayInfo)
        (ar qr : LLMResult),
        is_reset_command (py_strip body) = true →
        (twilio_webhook s ⟨body, ar, qr, t1, t2⟩ c td).1.auth_attempts = 0) ∧
    (∀ (md pq : Option String) (hist : List Turn) (a : Nat)
        (body c t1 t2 : String) (td : TodayInfo) (ar qr : LLMResult),
        is_reset_command (py_strip body) = false →
        py_startswith (llm_response ar) "MATCH_FOUND:" = true →
        (twilio_webhook ⟨false, md, pq, hist, a⟩ ⟨body, ar, qr, t1, t2⟩
            c td).1.auth_attempts = 0) := by
  constructor
  · intro s body c t1 t2 td ar qr hr
    rw [twilio_webhook_reset s body c t1 t2 td ar qr hr]
    simp [initial_session]
  · intro md pq hist a body c t1 t2 td ar qr hr hm
    rw [twilio_webhook_unauth md pq hist a body c t1 t2 td ar qr hr]
    simp only [add_to_history_auth_attempts,
      handle_unauthenticated_match _ _ _ _ _ _ hm]
    exact handle_match_auth_attempts _ _ _ _ _

/-- Witness for C4 (amended): a reset from a dirty session and a
`MATCH_FOUND` from a locked-out session both land on `auth_attempts` = 0. -/
theorem claim_C4_witness :
    (twilio_webhook ⟨true, some "J", some "Q", [], 2⟩
        ⟨"Reset", .success "X", .success "M", "t1", "t2"⟩ "c"
        sample_today).1.auth_attempts = 0 ∧
    (twilio_webhook ⟨false, none, none, [], 3⟩
        ⟨"Jane Doe, 12-05-1990", .success "MATCH_FOUND: Jane Doe",
          .success "A", "t1", "t2"⟩ "c" sample_today).1.auth_attempts = 0 :=
  ⟨claim_C4_amended.1 ⟨true, some "J", some "Q", [], 2⟩ "Reset" "c" "t1" "t2"
      sample_today (.success "X") (.success "M") (by decide),
   claim_C4_amended.2 none none [] 3 "Jane Doe, 12-05-1990" "c" "t1" "t2"
      sample_today (.success "MATCH_FOUND: Jane Doe") (.success "A")
      (by decide) (by decide)⟩

/-- C6: in every session state (authenticated or not, locked out or not), an
inbound message case-insensitively equal to "reset" leaves the session with
`auth_attempts` = 0, `authenticated` = false and no pending question. -/
theorem claim_C6 (s : Session) (body c t1 t2 : String) (td : TodayInfo)
    (ar qr : LLMResult)
    (hreset : py_lower (py_strip body) = "reset") :
    (twilio_webhook s ⟨body, ar, qr, t1, t2⟩ c td).1.auth_attempts = 0 ∧
    (twilio_webhook s ⟨body, ar, qr, t1, t2⟩ c td).1.authenticated = false ∧
    (twilio_webhook s ⟨body, ar, qr, t1, t2⟩ c td).1.pending_question = none := by
  have hr : is_reset_command (py_strip body) = true := by
    unfold is_reset_command
    rw [hreset]
    decide
  rw [twilio_webhook_reset s body c t1 t2 td ar qr hr]
  simp [initial_session]

/-- Witness for C6: "Reset" from an authenticated, mid-lockout-like session. -/
theorem claim_C6_witness :
    (twilio_webhook ⟨true, some "Jane Doe", some "Q?", [], 2⟩
        ⟨"Reset", .success "X", .success "MENU", "t1", "t2"⟩ "corpus"
        sample_today).1.auth_attempts = 0 ∧
    (twilio_webhook ⟨true, some "Jane Doe", some "Q?", [], 2⟩
        ⟨"Reset", .success "X", .success "MENU", "t1", "t2"⟩ "corpus"
        sample_today).1.authenticated = false ∧
    (twilio_webhook ⟨true, some "Jane Doe", some "Q?", [], 2⟩
        ⟨"Reset", .success "X", .success "MENU", "t1", "t2"⟩ "corpus"
        sample_today).1.pending_question = none :=
  claim_C6 ⟨true, some "Jane Doe", some "Q?", [], 2⟩ "Reset" "corpus"
    "t1" "t2" sample_today (.success "X") (.success "MENU") (by decide)

/-- C7: for every unauthenticated session holding a non-empty pending
question, when the oracle reply for a non-reset inbound message starts with
`MATCH_FOUND:`, the session becomes authenticated with `auth_attempts` = 0,
`pending_question` is cleared, and the reply is the welcome message followed
by the quoted pending question and the query-oracle answer to it. -/
theorem claim_C7 (md : Option String) (hist : List Turn) (a : Nat)
    (q body c t1 t2 : String) (td : TodayInfo) (ar qr : LLMResult)
    (hq : q ≠ "")
    (hreset : is_reset_command (py_strip body) = false)
    (hm : py_startswith (llm_response ar) "MATCH_FOUND:" = true) :
    (twilio_webhook ⟨false, md, some q, hist, a⟩ ⟨body, ar, qr, t1, t2⟩
        c td).1.authenticated = true ∧
    (twilio_webhook ⟨false, md, some q, hist, a⟩ ⟨body, ar, qr, t1, t2⟩
        c td).1.auth_attempts = 0 ∧
    (twilio_webhook ⟨false, md, some q, hist, a⟩ ⟨body, ar, qr, t1, t2⟩
        c td).1.pending_question = none ∧
    (twilio_webhook ⟨false, md, some q, hist, a⟩ ⟨body, ar, qr, t1, t2⟩
        c td).2 =
      welcome_msg (py_strip (py_drop_chars (llm_response ar)
          (py_len "MATCH_FOUND:"))) ++
        "\n\nRegarding your earlier question:\n> \"_" ++ q ++ "_\"\n\n" ++
        handle_authenticated_query td q
          (some (py_strip (py_drop_chars (llm_response ar)
            (py_len "MATCH_FOUND:"))))
          c (keep_last_10 (hist ++ [⟨"user", py_strip body, t1⟩])) qr := by
  have hpt : pending_truthy (some q) = true := by
    simp [pending_truthy, hq]
  rw [twilio_webhook_unauth md (some q) hist a body c t1 t2 td ar qr hreset]
  simp only [add_to_history_authenticated, add_to_history_auth_attempts,
    add_to_history_pending_question, add_to_history_conversation_history,
    handle_unauthenticated_match _ _ _ _ _ _ hm]
  simp only [handle_match, add_to_history_pending_question,
    add_to_history_conversation_history, hpt, if_true]
  simp [Option.getD]

/-- Witness for C7 at a concrete pending-question authentication. -/
theorem claim_C7_witness :
    (twilio_webhook ⟨false, none, some "What events are coming up?", [], 1⟩
        ⟨"Jane Doe, 12-05-1990", .success "MATCH_FOUND: Jane Doe",
          .success "Answer text", "t1", "t2"⟩ "corpus"
        sample_today).1.authenticated = true ∧
    (twilio_webhook ⟨false, none, some "What events are coming up?", [], 1⟩
        ⟨"Jane Doe, 12-05-1990", .success "MATCH_FOUND: Jane Doe",
          .success "Answer text", "t1", "t2"⟩ "corpus"
        sample_today).1.auth_attempts = 0 ∧
    (twilio_webhook ⟨false, none, some "What events are coming up?", [], 1⟩
        ⟨"Jane Doe, 12-05-1990", .success "MATCH_FOUND: Jane Doe",
          .success "Answer text", "t1", "t2"⟩ "corpus"
        sample_today).1.pending_question = none ∧
    (twilio_webhook ⟨false, none, some "What events are coming up?", [], 1⟩
        ⟨"Jane Doe, 12-05-1990", .success "MATCH_FOUND: Jane Doe",
          .success "Answer text", "t1", "t2"⟩ "corpus" sample_today).2 =
      welcome_msg (py_strip (py_drop_chars
          (llm_response (.success "MATCH_FOUND: Jane Doe"))
          (py_len "MATCH_FOUND:"))) ++
        "\n\nRegarding your earlier question:\n> \"_" ++
        "What events are coming up?" ++ "_\"\n\n" ++
        handle_authenticated_query sample_today "What events are coming up?"
          (some (py_strip (py_drop_chars
            (llm_response (.success "MATCH_FOUND: Jane Doe"))
            (py_len "MATCH_FOUND:"))))
          "corpus"
          (keep_last_10 ([] ++ [⟨"user", py_strip "Jane Doe, 12-05-1990", "t1"⟩]))
          (.success "Answer text") :=
  claim_C7 none [] 1 "What events are coming up?" "Jane Doe, 12-05-1990"
    "corpus" "t1" "t2" sample_today (.success "MATCH_FOUND: Jane Doe")
    (.success "Answer text") (by decide) (by decide) (by decide)

/-- C8 counterexample: an authenticated session sending the non-reset
message "hey" gets the canned greeting reply, not the query oracle's answer
("ANSWER42"), contradicting the claim that every authenticated non-reset
message is answered by the query oracle. -/
theorem claim_C8_counterexample :
    (twilio_webhook ⟨true, some "Jane Doe", none, [], 0⟩
        ⟨"hey", .success "X", .success "ANSWER42", "t1", "t2"⟩ "corpus"
        sample_today).2 =
      "Hey! Welcome to EO Goa! ğŸš€\n\n*Welcome back, Jane Doe!* ğŸ˜Š\n\nHow may I assist you with EO Goa today?" ∧
    (twilio_webhook ⟨true, some "Jane Doe", none, [], 0⟩
        ⟨"hey", .success "X", .success "ANSWER42", "t1", "t2"⟩ "corpus"
        sample_today).2 ≠ "ANSWER42" := by
  decide

/-- C8 (amended): for every authenticated session and inbound non-reset
message, the session stays authenticated; and whenever the message is
neither a detected standalone greeting nor a help request, it is forwarded
(with the member identity, the content corpus, and the last 6 history
turns) to the query oracle and the reply is the oracle's answer. -/
theorem claim_C8_amended (md pq : Option String) (hist : List Turn) (a : Nat)
    (body c t1 t2 : String) (td : TodayInfo) (ar qr : LLMResult)
    (hreset : is_reset_command (py_strip body) = false) :
    (twilio_webhook ⟨true, md, pq, hist, a⟩ ⟨body, ar, qr, t1, t2⟩
        c td).1.authenticated = true ∧
    (detect_greeting (py_strip body) = none →
      detect_help_request (py_strip body) = false →
      (twilio_webhook ⟨true, md, pq, hist, a⟩ ⟨body, ar, qr, t1, t2⟩
          c td).2 =
        call_llm td (query_prompt (py_strip body) md c (String.intercalate "\n"
          (((keep_last_10 (hist ++ [⟨"user", py_strip body, t1⟩])).drop
            ((keep_last_10 (hist ++ [⟨"user", py_strip body, t1⟩])).length - 6)).map
            (fun msg => msg.role ++ ": " ++ msg.content)))) qr) := by
  constructor
  · rw [twilio_webhook_auth md pq hist a body c t1 t2 td ar qr hreset]
    simp
  · intro hgr hhelp
    rw [twilio_webhook_auth md pq hist a body c t1 t2 td ar qr hreset]
    simp only [add_to_history_conversation_history]
    rw [handle_authenticated_query_forward td (py_strip body) md c _ qr hgr hhelp]

/-- Witness for C8 (amended) at a concrete forwarded question. -/
theorem claim_C8_witness :
    (twilio_webhook ⟨true, some "Jane Doe", none, [], 0⟩
        ⟨"When is the next event?", .success "X", .success "Event answer",
          "t1", "t2"⟩ "corpus" sample_today).1.authenticated = true ∧
    (twilio_webhook ⟨true, some "Jane Doe", none, [], 0⟩
        ⟨"When is the next event?", .success "X", .success "Event answer",
          "t1", "t2"⟩ "corpus" sample_today).2 =
      call_llm sample_today (query_prompt (py_strip "When is the next event?")
        (some "Jane Doe") "corpus" (String.intercalate "\n"
          (((keep_last_10 ([] ++ [⟨"user", py_strip "When is the next event?", "t1"⟩])).drop
            ((keep_last_10 ([] ++ [⟨"user", py_strip "When is the next event?", "t1"⟩])).length - 6)).map
            (fun msg => msg.role ++ ": " ++ msg.content))))
        (.success "Event answer") :=
  ⟨(claim_C8_amended (some "Jane Doe") none [] 0 "When is the next event?"
      "corpus" "t1" "t2" sample_today (.success "X") (.success "Event answer")
      (by decide)).1,
   (claim_C8_amended (some "Jane Doe") none [] 0 "When is the next event?"
      "corpus" "t1" "t2" sample_today (.success "X") (.success "Event answer")
      (by decide)).2 (by decide) (by decide)⟩

/-- C9: during authentication, an oracle reply that starts with none of the
recognized prefixes `MATCH_FOUND:`, `MULTIPLE_MATCHES:`, `NEED_MORE_INFO:`
is handled exactly as the `NoMatch` outcome (the turn is identical to one
whose oracle reply is `NO_MATCH`, and the attempt counter is incremented);
the embedding is total, so no such reply can fail the turn. -/
theorem claim_C9 (md pq : Option String) (hist : List Turn) (a : Nat)
    (body c t1 t2 : String) (td : TodayInfo) (ar qr : LLMResult)
    (hreset : is_reset_command (py_strip body) = false)
    (h1 : py_startswith (llm_response ar) "MATCH_FOUND:" = false)
    (h2 : py_startswith (llm_response ar) "MULTIPLE_MATCHES:" = false)
    (h3 : py_startswith (llm_response ar) "NEED_MORE_INFO:" = false) :
    twilio_webhook ⟨false, md, pq, hist, a⟩ ⟨body, ar, qr, t1, t2⟩ c td =
      twilio_webhook ⟨false, md, pq, hist, a⟩
        ⟨body, .success "NO_MATCH", qr, t1, t2⟩ c td ∧
    (twilio_webhook ⟨false, md, pq, hist, a⟩ ⟨body, ar, qr, t1, t2⟩
        c td).1.auth_attempts = a + 1 :=
  ⟨(webhook_fallback_spec md pq hist a body c t1 t2 td ar qr hreset
      h1 h2 h3).2.2,
   (webhook_fallback_spec md pq hist a body c t1 t2 td ar qr hreset
      h1 h2 h3).2.1⟩

/-- Witness for C9 at a concrete unrecognized oracle reply. -/
theorem claim_C9_witness :
    twilio_webhook ⟨false, none, none, [], 0⟩
        ⟨"Jane Doe", .success "GIBBERISH REPLY", .success "A", "t1", "t2"⟩
        "corpus" sample_today =
      twilio_webhook ⟨false, none, none, [], 0⟩
        ⟨"Jane Doe", .success "NO_MATCH", .success "A", "t1", "t2"⟩
        "corpus" sample_today ∧
    (twilio_webhook ⟨false, none, none, [], 0⟩
        ⟨"Jane Doe", .success "GIBBERISH REPLY", .success "A", "t1", "t2"⟩
        "corpus" sample_today).1.auth_attempts = 0 + 1 :=
  claim_C9 none none [] 0 "Jane Doe" "corpus" "t1" "t2" sample_today
    (.success "GIBBERISH REPLY") (.success "A") (by decide) (by decide)
    (by decide) (by decide)

/-- C10: from a fresh unauthenticated session, a standalone greeting outside
the reset command set ("hey", "good morning", "good afternoon",
"good evening", "namaste", "namaskar") with a `NO_MATCH` oracle reply still
increments `auth_attempts` to 1, does not set `pending_question`, and is
answered with the friendly greeting asking for credentials — greetings
silently consume authentication attempts. -/
theorem claim_C10 (md : Option String) (hist : List Turn)
    (body c t1 t2 : String) (td : TodayInfo) (ar qr : LLMResult)
    (hg : py_strip body ∈ (["hey", "good morning", "good afternoon",
        "good evening", "namaste", "namaskar"] : List String))
    (hnm : llm_response ar = "NO_MATCH") :
    (twilio_webhook ⟨false, md, none, hist, 0⟩ ⟨body, ar, qr, t1, t2⟩
        c td).1.auth_attempts = 1 ∧
    (twilio_webhook ⟨false, md, none, hist, 0⟩ ⟨body, ar, qr, t1, t2⟩
        c td).1.pending_question = none ∧
    (twilio_webhook ⟨false, md, none, hist, 0⟩ ⟨body, ar, qr, t1, t2⟩
        c td).1.authenticated = false ∧
    ∃ g, detect_greeting (py_strip body) = some g ∧
      (twilio_webhook ⟨false, md, none, hist, 0⟩ ⟨body, ar, qr, t1, t2⟩
          c td).2 = unauth_greeting_reply g := by
  simp only [List.mem_cons, List.not_mem_nil, or_false] at hg
  rcases hg with h | h | h | h | h | h
  · obtain ⟨a1, a2, a3, a4⟩ := webhook_greeting_spec md hist body c t1 t2 td
      ar qr "Hey! Welcome to EO Goa! ğŸš€"
      (by rw [h]; decide) hnm (by rw [h]; decide) (by rw [h]; decide)
    exact ⟨a1, a2, a3, "Hey! Welcome to EO Goa! ğŸš€", by rw [h]; decide, a4⟩
  · obtain ⟨a1, a2, a3, a4⟩ := webhook_greeting_spec md hist body c t1 t2 td
      ar qr "Good morning! Welcome to EO Goa! ğŸš€"
      (by rw [h]; decide) hnm (by rw [h]; decide) (by rw [h]; decide)
    exact ⟨a1, a2, a3, "Good morning! Welcome to EO Goa! ğŸš€",
      by rw [h]; decide, a4⟩
  · obtain ⟨a1, a2, a3, a4⟩ := webhook_greeting_spec md hist body c t1 t2 td
      ar qr "Good afternoon! Welcome to EO Goa! ğŸš€"
      (by rw [h]; decide) hnm (by rw [h]; decide) (by rw [h]; decide)
    exact ⟨a1, a2, a3, "Good afternoon! Welcome to EO Goa! ğŸš€",
      by rw [h]; decide, a4⟩
  · obtain ⟨a1, a2, a3, a4⟩ := webhook_greeting_spec md hist body c t1 t2 td
      ar qr "Good evening! Welcome to EO Goa! ğŸš€"
      (by rw [h]; decide) hnm (by rw [h]; decide) (by rw [h]; decide)
    exact ⟨a1, a2, a3, "Good evening! Welcome to EO Goa! ğŸš€",
      by rw [h]; decide, a4⟩
  · obtain ⟨a1, a2, a3, a4⟩ := webhook_greeting_spec md hist body c t1 t2 td
      ar qr "Namaste! Welcome to EO Goa! ğŸš€"
      (by rw [h]; decide) hnm (by rw [h]; decide) (by rw [h]; decide)
    exact ⟨a1, a2, a3, "Namaste! Welcome to EO Goa! ğŸš€",
      by rw [h]; decide, a4⟩
  · obtain ⟨a1, a2, a3, a4⟩ := webhook_greeting_spec md hist body c t1 t2 td
      ar qr "Namaskar! Welcome to EO Goa! ğŸš€"
      (by rw [h]; decide) hnm (by rw [h]; decide) (by rw [h]; decide)
    exact ⟨a1, a2, a3, "Namaskar! Welcome to EO Goa! ğŸš€",
      by rw [h]; decide, a4⟩

/-- Witness for C10 at a concrete "good morning" turn. -/
theorem claim_C10_witness :
    (twilio_webhook ⟨false, none, none, [], 0⟩
        ⟨" good morning ", .success "NO_MATCH", .success "A", "t1", "t2"⟩
        "corpus" sample_today).1.auth_attempts = 1 ∧
    (twilio_webhook ⟨false, none, none, [], 0⟩
        ⟨" good morning ", .success "NO_MATCH", .success "A", "t1", "t2"⟩
        "corpus" sample_today).1.pending_question = none ∧
    (twilio_webhook ⟨false, none, none, [], 0⟩
        ⟨" good morning ", .success "NO_MATCH", .success "A", "t1", "t2"⟩
        "corpus" sample_today).1.authenticated = false ∧
    ∃ g, detect_greeting (py_strip " good morning ") = some g ∧
      (twilio_webhook ⟨false, none, none, [], 0⟩
          ⟨" good morning ", .success "NO_MATCH", .success "A", "t1", "t2"⟩
          "corpus" sample_today).2 = unauth_greeting_reply g :=
  claim_C10 none [] " good morning " "corpus" "t1" "t2" sample_today
    (.success "NO_MATCH") (.success "A") (by decide) (by decide)

end EO
